import Mathlib

/-!
Verification of the bond MCP client (package `mcp`, plus the local tool
registry in package `tools`) against its natural-language specification.

The Go source is shallowly embedded:
* JSON values (`encoding/json`'s `any` universe: nil, bool, float64, string,
  `[]any`, `map[string]any`) become the inductive `Bond.Json`; numbers are
  modelled as integers, which covers every number this client produces
  (request ids are Go `int`s).
* Struct (un)marshalling with the source's `json:"..."` tags becomes explicit
  field extraction from `Json.obj` field lists.
* Go `int` is a 64-bit machine integer; its wrap-around arithmetic is modelled
  by `wrap64`.
* The concurrent engine (`MCP` in mcp.go) becomes an explicit state
  (`EngineState`) plus trace functions; each trace function's doc comment
  names the source lines it mirrors and the environment it assumes.
-/

namespace Bond

/-- A JSON value as produced by Go's `encoding/json` when unmarshalling into
`any`: `nil`, `bool`, `float64`, `string`, `[]any`, `map[string]any`.
Object fields are kept as an ordered association list.  Numbers are modelled
as integers (the only numbers this client puts on the wire are `int` ids). -/
inductive Json where
  | null
  | bool (b : Bool)
  | num (n : Int)
  | str (s : String)
  | arr (elems : List Json)
  | obj (fields : List (String × Json))

/-- `true` iff the value is JSON null / the Go `nil` interface. -/
def Json.isNull : Json → Bool
  | .null => true
  | _ => false

/-- Field lookup in an unmarshalled JSON object.  Go's `encoding/json` lets a
later duplicate key overwrite an earlier one, so the *last* binding wins. -/
def lookupField (fields : List (String × Json)) (key : String) : Option Json :=
  fields.reverse.lookup key

theorem Json.isNull_iff (j : Json) : j.isNull = true ↔ j = .null := by
  cases j <;> simp [Json.isNull]

/-! ## JSON-RPC codec (src/unnamed/part_032, package mcp) -/

/-- `const Version = "2.0"` — the JSON-RPC version tag. -/
def Version : String := "2.0"

/-- `type Request struct` (part_032 lines 11-17).  The `any`-typed fields
`Params` and `ID` hold JSON values; `Json.null` plays the role of the Go
`nil` interface (which is what both an absent key and a JSON `null`
unmarshal to, and what `omitempty` omits). -/
structure Request where
  jsonrpc : String
  method : String
  params : Json
  id : Json

/-- `type Error struct` (part_032 lines 70-75). -/
structure ErrorObj where
  code : Int
  message : String
  data : Json

/-- `type Response struct` (part_032 lines 19-25).  `Error *Error` is a
possibly-nil pointer, modelled by `Option`; `Result any` is `Json` with
`Json.null` for nil. -/
structure Response where
  jsonrpc : String
  result : Json
  error : Option ErrorObj
  id : Json

/-- `NewRequest` (part_032 lines 100-108). -/
def NewRequest (method : String) (params : Json) (id : Json) : Request :=
  { jsonrpc := Version, method := method, params := params, id := id }

/-- `json.Marshal` of a `Request`: fields in struct order; `params` and `id`
carry `omitempty`, so they are omitted exactly when the interface is nil. -/
def marshalRequest (r : Request) : Json :=
  .obj ([("jsonrpc", .str r.jsonrpc), ("method", .str r.method)]
    ++ (if r.params.isNull then [] else [("params", r.params)])
    ++ (if r.id.isNull then [] else [("id", r.id)]))

/-- `json.Unmarshal(data, &request)` for `Request`: a JSON object populates
the tagged fields (absent keys keep their zero value, a wrongly-typed
`method`/`jsonrpc` is an unmarshal error); unmarshalling JSON `null` into a
struct is a no-op; any other shape is a type error. -/
def unmarshalRequest (j : Json) : Except String Request :=
  match j with
  | .null => .ok { jsonrpc := "", method := "", params := .null, id := .null }
  | .obj fields => do
      let ver ← (match lookupField fields "jsonrpc" with
        | none => .ok ""
        | some (.str s) => .ok s
        | some _ => .error "cannot unmarshal into Go struct field Request.jsonrpc of type string")
      let meth ← (match lookupField fields "method" with
        | none => .ok ""
        | some (.str s) => .ok s
        | some _ => .error "cannot unmarshal into Go struct field Request.method of type string")
      let params := (lookupField fields "params").getD .null
      let id := (lookupField fields "id").getD .null
      .ok { jsonrpc := ver, method := meth, params := params, id := id }
  | _ => .error "cannot unmarshal into Go value of type mcp.Request"

/-- `json.Unmarshal` into the `*Error` field: JSON `null` leaves the pointer
nil, an object populates the struct (an integer `code`, a string `message`),
anything else is a type error. -/
def unmarshalErrorObj (j : Json) : Except String (Option ErrorObj) :=
  match j with
  | .null => .ok none
  | .obj fields => do
      let code ← (match lookupField fields "code" with
        | none => .ok 0
        | some (.num n) => .ok n
        | some _ => .error "cannot unmarshal into Go struct field Error.code of type int")
      let msg ← (match lookupField fields "message" with
        | none => .ok ""
        | some (.str s) => .ok s
        | some _ => .error "cannot unmarshal into Go struct field Error.message of type string")
      let data := (lookupField fields "data").getD .null
      .ok (some { code := code, message := msg, data := data })
  | _ => .error "cannot unmarshal into Go value of type *mcp.Error"

/-- `json.Unmarshal(data, &response)` for `Response`. -/
def unmarshalResponse (j : Json) : Except String Response :=
  match j with
  | .null => .ok { jsonrpc := "", result := .null, error := none, id := .null }
  | .obj fields => do
      let ver ← (match lookupField fields "jsonrpc" with
        | none => .ok ""
        | some (.str s) => .ok s
        | some _ => .error "cannot unmarshal into Go struct field Response.jsonrpc of type string")
      let res := (lookupField fields "result").getD .null
      let err ← (match lookupField fields "error" with
        | none => .ok none
        | some je => unmarshalErrorObj je)
      let id := (lookupField fields "id").getD .null
      .ok { jsonrpc := ver, result := res, error := err, id := id }
  | _ => .error "cannot unmarshal into Go value of type mcp.Response"

/-- The outcome of `Parse` / `ParseResponse`, which return both a value and
an error: `parseFailed msg` is `(nil, err)` from a failed unmarshal,
`invalid v msg` is `(&v, err)` from a failed validation, `ok v` is
`(&v, nil)` — the only accepting outcome. -/
inductive ParseOutcome (α : Type) where
  | parseFailed (msg : String)
  | invalid (v : α) (msg : String)
  | ok (v : α)

/-- `true` exactly on the accepting (`nil` error) outcome. -/
def ParseOutcome.accepts {α : Type} : ParseOutcome α → Bool
  | .ok _ => true
  | _ => false

/-- `Parse` (part_032 lines 132-150): unmarshal, then reject a wrong version
tag, then reject an empty method. -/
def Parse (j : Json) : ParseOutcome Request :=
  match unmarshalRequest j with
  | .error e => .parseFailed ("failed to parse JSON-RPC request: " ++ e)
  | .ok r =>
      if r.jsonrpc != Version then
        .invalid r ("invalid JSON-RPC version: expected " ++ Version)
      else if r.method == "" then
        .invalid r "missing method in JSON-RPC request"
      else
        .ok r

/-- `ParseResponse` (part_032 lines 152-175): unmarshal, then reject a wrong
version tag, then reject a response with both result and error present, then
one with neither. -/
def ParseResponse (j : Json) : ParseOutcome Response :=
  match unmarshalResponse j with
  | .error e => .parseFailed ("failed to parse JSON-RPC response: " ++ e)
  | .ok r =>
      if r.jsonrpc != Version then
        .invalid r ("invalid JSON-RPC version: expected " ++ Version)
      else if !r.result.isNull && r.error.isSome then
        .invalid r "invalid JSON-RPC response: both result and error present"
      else if r.result.isNull && r.error.isNone then
        .invalid r "invalid JSON-RPC response: missing both result and error"
      else
        .ok r

/-! ## Request ID allocator (mcp.go lines 47, 69, 212-219) -/

/-- Reduction of an integer into the range of a 64-bit Go `int`
(`[-2^63, 2^63)`); Go's `int` arithmetic wraps around on overflow. -/
def wrap64 (n : Int) : Int := (n + 2 ^ 63) % 2 ^ 64 - 2 ^ 63

/-- The value of `m.nextID` after `n` calls of `getNextID`, starting from the
`nextID: 1` set by `NewMCP` (mcp.go line 69); each call does `m.nextID++` on
a 64-bit `int` (mcp.go line 217). -/
def nextIDAfter : Nat → Int
  | 0 => 1
  | n + 1 => wrap64 (nextIDAfter n + 1)

/-- The id returned by the `(n+1)`-th call of `getNextID` (mcp.go lines
212-219): it returns the current `m.nextID` and then increments it. -/
def idAt (n : Nat) : Int := nextIDAfter n

theorem wrap64_eq_self {n : Int} (h₁ : -2 ^ 63 ≤ n) (h₂ : n < 2 ^ 63) :
    wrap64 n = n := by
  unfold wrap64
  omega

theorem wrap64_wrap64_add_one (n : Int) :
    wrap64 (wrap64 n + 1) = wrap64 (n + 1) := by
  unfold wrap64
  omega

/-- Closed form for the allocator: the `(n+1)`-th id is `1 + n` reduced into
the 64-bit signed range. -/
theorem nextIDAfter_closed (n : Nat) : nextIDAfter n = wrap64 (1 + n) := by
  induction n with
  | zero =>
      show (1 : Int) = wrap64 (1 + (0 : Nat))
      unfold wrap64
      norm_num
  | succ n ih =>
      show wrap64 (nextIDAfter n + 1) = wrap64 (1 + (n + 1 : Nat))
      rw [ih, wrap64_wrap64_add_one]
      push_cast
      ring_nf

/-! ## Correlation core: engine state and call traces (mcp.go) -/

/-- The engine state visible to the claims: the id counter, the `running`
flag, the key set of the pending-request table `m.pending`, and the sequence
of request lines written to the child's stdin. -/
structure EngineState where
  nextID : Int
  running : Bool
  pending : List Int
  writes : List Request

/-- Go map insert `m.pending[id] = req` on the table's key set. -/
def insertKey (id : Int) (keys : List Int) : List Int :=
  id :: keys.filter (· ≠ id)

/-- Go map delete `delete(m.pending, id)` on the table's key set. -/
def eraseKey (id : Int) (keys : List Int) : List Int :=
  keys.filter (· ≠ id)

/-- What a caller of `callWithTimeout` observes: a delivered response, one of
the `fmt.Errorf` failures, or — when nothing ever releases the final
`select` — staying blocked forever. -/
inductive CallOutcome where
  | ok (r : Response)
  | errNotRunning
  | errTimeout (timeout : Int)
  | blocked

/-- The event that releases (or fails to release) the `select` at the end of
`callWithTimeout` (mcp.go lines 690-696): the dispatcher delivering a
response on `responseChan`, the `time.AfterFunc` timer closing `doneChan`,
the process-exit waiter (mcp.go lines 165-185) closing `doneChan`, or no
event at all. -/
inductive Unblock where
  | delivered (r : Response)
  | timerFired
  | processExited
  | never

/-- Trace of `callWithTimeout` (mcp.go lines 629-697) with a live pipe (the
write succeeds; marshalling a `Json`-valued params cannot fail), under
environment `u`:
* not running → `"MCP is not running"` (lines 631-636);
* otherwise allocate `id := getNextID()` (line 639), build the request with
  that id (line 640), arm the timer when `timeout > 0` (lines 653-660) —
  whose callback deletes the table entry and closes `doneChan` — register
  `m.pending[id]` (lines 663-665), write the JSON line (line 680), and block
  in the `select` (lines 691-696);
* `delivered r`: the dispatcher sent `r` on `responseChan` and deleted the
  entry (mcp.go lines 270-295), so the caller returns `ok r`;
* `timerFired` (possible only when a timer was armed, i.e. `timeout > 0`):
  the timer callback deleted the entry and closed `doneChan`, so the caller
  returns the timeout error;
* `processExited`: the waiter set `running` to false, closed every pending
  entry's `doneChan` and emptied the table (mcp.go lines 166-180); the
  caller's `select` takes `<-doneChan` and returns the same timeout error;
* `never`: nothing releases the `select`; the caller stays blocked. -/
def callWithTimeout (s : EngineState) (method : String) (params : Json)
    (timeout : Int) (u : Unblock) : CallOutcome × EngineState :=
  if s.running = false then
    (.errNotRunning, s)
  else
    let id := s.nextID
    let s₁ : EngineState :=
      { s with
        nextID := wrap64 (s.nextID + 1)
        pending := insertKey id s.pending
        writes := s.writes ++ [NewRequest method params (.num id)] }
    match u with
    | .delivered r => (.ok r, { s₁ with pending := eraseKey id s₁.pending })
    | .timerFired =>
        if 0 < timeout then
          (.errTimeout timeout, { s₁ with pending := eraseKey id s₁.pending })
        else
          (.blocked, s₁)
    | .processExited =>
        (.errTimeout timeout, { s₁ with running := false, pending := [] })
    | .never => (.blocked, s₁)

/-! ## Notification dispatch (mcp.go lines 108-113, 312-347) -/

/-- A Go runtime panic, here from a failed single-value type assertion. -/
inductive GoPanic where
  | interfaceConversion (msg : String)

/-- The handler registry `m.handlers` (method name → handler); handlers are
identified by opaque tokens.  `RegisterHandler` (mcp.go lines 109-113)
overwrites any prior binding for the method. -/
def registerHandler (handlers : List (String × Nat)) (method : String)
    (handler : Nat) : List (String × Nat) :=
  (method, handler) :: handlers.filter (·.1 ≠ method)

/-- Handler lookup `m.handlers[method]` under `handlersMtx.RLock`. -/
def lookupHandler (handlers : List (String × Nat)) (method : String) :
    Option Nat :=
  handlers.reverse.lookup method

/-- `dispatchToHandler` (mcp.go lines 312-347).  Returns `ok (some h)` when
handler `h` is started in its own goroutine, `ok none` when the message is
dropped, and `error` when the method panics.

For a nil-id message (line 314) the code evaluates
`response.Result.(map[string]any)["method"].(string)` (line 316): the comma-ok
form covers only the outer `.(string)` assertion, so the inner
`.(map[string]any)` assertion is in single-value context and panics whenever
`Result` is not a `map[string]any` — in particular when `Result` is nil.
For a message with an id (lines 330-346) the assertion uses the comma-ok
form and cannot panic. -/
def dispatchToHandler (handlers : List (String × Nat)) (r : Response) :
    Except GoPanic (Option Nat) :=
  if r.id.isNull then
    match r.result with
    | .obj fields =>
        match lookupField fields "method" with
        | some (.str method) => .ok (lookupHandler handlers method)
        | _ => .ok none
    | .null =>
        .error (.interfaceConversion
          "interface conversion: interface \x7b\x7d is nil, not map[string]any")
    | _ =>
        .error (.interfaceConversion
          "interface conversion: interface \x7b\x7d is not map[string]any")
  else
    match r.result with
    | .obj fields =>
        match lookupField fields "method" with
        | some (.str method) =>
            if method != "" then .ok (lookupHandler handlers method) else .ok none
        | _ => .ok none
    | _ => .ok none

/-! ## Lock discipline of `callWithTimeout` (mcp.go lines 629-697) -/

/-- The mutexes of `MCP` (mcp.go lines 48-56). -/
inductive LockName where
  | runningMtx
  | idMutex
  | pendingMtx
  | handlersMtx
  | ioMutex
deriving DecidableEq

/-- One atomic step of `callWithTimeout`. -/
inductive CallAction where
  | lock (l : LockName)
  | unlock (l : LockName)
  | readRunning
  | allocID
  | armTimer
  | insertPending
  | marshalRequest
  | writeStdin
  | selectWait
deriving DecidableEq

/-- The steps `callWithTimeout` performs on its success path, in source
order: the `running` check under `runningMtx` (lines 631-636), `getNextID`
under `idMutex` (lines 639, 213-218), arming the timer (lines 653-660),
registering the pending entry under `pendingMtx` (lines 663-665),
`json.Marshal` (line 668), `fmt.Fprintln(m.cmdStdin, ...)` (line 680), and
the final `select` (lines 691-696). -/
def callWithTimeoutActions : List CallAction :=
  [ .lock .runningMtx, .readRunning, .unlock .runningMtx,
    .lock .idMutex, .allocID, .unlock .idMutex,
    .armTimer,
    .lock .pendingMtx, .insertPending, .unlock .pendingMtx,
    .marshalRequest,
    .writeStdin,
    .selectWait ]

/-- The set of locks a goroutine holds just before executing step `i` of an
action list, obtained by replaying the lock/unlock steps before it. -/
def locksHeldBefore (acts : List CallAction) (i : Nat) : List LockName :=
  (acts.take i).foldl
    (fun held a =>
      match a with
      | .lock l => l :: held
      | .unlock l => held.filter (· ≠ l)
      | _ => held)
    []

/-! ## Capability negotiation (mcp.go lines 27-35, 561-627) -/

/-- `type ToolsCapability struct` (mcp.go lines 33-35). -/
structure ToolsCapability where
  listChanged : Bool
deriving DecidableEq

/-- `type MCPCapabilities struct` (mcp.go lines 28-30). -/
structure MCPCapabilities where
  tools : ToolsCapability
deriving DecidableEq

/-- `json.Unmarshal` of the capabilities object into `MCPCapabilities`
(mcp.go lines 605-613): the `tools` key, when present, must be an object
whose `listChanged` key, when present, must be a boolean. -/
def unmarshalCapabilities (fields : List (String × Json)) :
    Except String MCPCapabilities :=
  match lookupField fields "tools" with
  | none => .ok { tools := { listChanged := false } }
  | some .null => .ok { tools := { listChanged := false } }
  | some (.obj tfields) =>
      (match lookupField tfields "listChanged" with
        | none => .ok { tools := { listChanged := false } }
        | some .null => .ok { tools := { listChanged := false } }
        | some (.bool b) => .ok { tools := { listChanged := b } }
        | some _ =>
            .error "cannot unmarshal into Go struct field ToolsCapability.listChanged of type bool")
  | some _ =>
      .error "cannot unmarshal into Go struct field MCPCapabilities.tools of type mcp.ToolsCapability"

/-- The `params` map of the `initialize` request (mcp.go lines 576-583). -/
def initializeParams : Json :=
  .obj [("capabilities", .obj []),
        ("clientInfo", .obj [("name", .str "bond-client"),
                             ("version", .str "1.0.0")]),
        ("protocolVersion", .str "2024-11-05")]

/-- `30 * time.Second` in nanoseconds — `defaultTimeout` (mcp.go line 71). -/
def defaultTimeout : Int := 30 * 1000000000

/-- What a run of `GetCapabilities` leaves behind: the returned value, the
outcome of the `m.Call("notifications/initialized", ...)` step (`none` when
that call was never reached) and the final engine state. -/
structure GetCapsTrace where
  result : Except String MCPCapabilities
  initializedOutcome : Option CallOutcome
  final : EngineState

/-- Trace of `GetCapabilities` (mcp.go lines 562-627) when the engine is
running, the server answers the `initialize` call with result `initResult`,
and — being a compliant JSON-RPC peer — never answers the
`notifications/initialized` message, so that call's timer fires:
`m.Call("initialize", ...)` (lines 576-583) is `callWithTimeout` with the
default timeout; the error branch is skipped (a delivered result carries no
error); `response.Result` must be a map holding a `capabilities` map (lines
594-602); the capabilities are unmarshalled (lines 605-613) and stored; then
`m.Call("notifications/initialized", map[string]any{})` (line 620) is again
a full `callWithTimeout`, whose error is only logged (lines 621-624). -/
def getCapabilitiesRunning (s : EngineState) (initResult : Json) :
    GetCapsTrace :=
  let c₁ := callWithTimeout s "initialize" initializeParams defaultTimeout
    (.delivered { jsonrpc := Version, result := initResult, error := none,
                  id := .num s.nextID })
  match initResult with
  | .obj fields =>
      match lookupField fields "capabilities" with
      | some (.obj cfields) =>
          (match unmarshalCapabilities cfields with
            | .error e =>
                { result := .error ("failed to unmarshal capabilities: " ++ e),
                  initializedOutcome := none, final := c₁.2 }
            | .ok caps =>
                let c₂ := callWithTimeout c₁.2 "notifications/initialized"
                  (.obj []) defaultTimeout .timerFired
                { result := .ok caps, initializedOutcome := some c₂.1,
                  final := c₂.2 })
      | _ =>
          { result := .error "capabilities not found in response",
            initializedOutcome := none, final := c₁.2 }
  | _ =>
      { result := .error "invalid capabilities response format",
        initializedOutcome := none, final := c₁.2 }

/-! ## Local tool registry and `CallTool` fallback
(src/tools/llama_agent.go lines 52-106, mcp.go lines 403-530,
src/unnamed/part_003) -/

/-- `models.Resource` (part_003). -/
structure Resource where
  uri : String
  mimeType : String
  text : String
deriving DecidableEq

/-- `models.ContentItem` (part_003). -/
structure ContentItem where
  type : String
  text : String
  data : String
  mimeType : String
  resource : Option Resource
deriving DecidableEq

/-- `models.ToolResult` (part_003). -/
structure ToolResult where
  name : String
  result : String
  content : List ContentItem
  isError : Bool
deriving DecidableEq

/-- `models.ToolExecutor`: a named, schema-described tool whose
`Execute(rawInput) -> (string, error)` is modelled as a function from the
marshalled arguments to either an error or an output string. -/
structure ToolExecutor where
  name : String
  description : String
  schema : Json
  execute : Json → Except String String

/-- The `tools.Registry` map `name → tool` (llama_agent.go lines 52-56). -/
def Registry := List (String × ToolExecutor)

/-- `Registry.Get` (llama_agent.go lines 80-86): a read-only map lookup
under `mu.RLock`; returns the tool and the `exists` flag, here an `Option`. -/
def Registry.Get (r : Registry) (name : String) : Option ToolExecutor :=
  (List.lookup name r.reverse : Option ToolExecutor)

/-- The `!running` branch of `MCP.CallTool` (mcp.go lines 490-530), taken
when the transport is down: look the tool up in the local registry, fail
with a `"tool ... not found in registry"` error when it is absent
(lines 491-494); otherwise marshal the arguments (which cannot fail for a
`map[string]any`) and run `tool.Execute` (line 503); an execution error is
converted into an `IsError` result with the error text as a single text
content item (lines 504-516), returned with a nil Go error; a successful
execution is wrapped the same way with `IsError` false (lines 519-529).
The registry is returned unchanged alongside the result: no path of this
branch mutates it. -/
def callToolNotRunning (reg : Registry) (name : String) (arguments : Json) :
    Except String ToolResult × Registry :=
  match Registry.Get reg name with
  | none => (.error ("tool \x27" ++ name ++ "\x27 not found in registry"), reg)
  | some tool =>
      match tool.execute arguments with
      | .error e =>
          (.ok { name := name,
                 result := "Error executing tool: " ++ e,
                 isError := true,
                 content := [{ type := "text",
                               text := "Error executing tool: " ++ e,
                               data := "", mimeType := "", resource := none }] },
           reg)
      | .ok out =>
          (.ok { name := name,
                 result := out,
                 isError := false,
                 content := [{ type := "text", text := out,
                               data := "", mimeType := "", resource := none }] },
           reg)

/-! ## Theorems for the claims -/

theorem idAt_of_lt_wrap (k : Nat) (h : k < 2 ^ 63 - 1) : idAt k = 1 + k := by
  rw [idAt, nextIDAfter_closed, wrap64_eq_self] <;> omega

/-- Claim C1, amended: `getNextID` returns 1 on its first call and, as long
as fewer than `2^63 - 1` ids have been allocated in the session, a strictly
larger value on every subsequent call; distinct calls therefore obtain
distinct ids, so no two entries simultaneously present in the
pending-request table (a map keyed by id) can stem from different calls with
the same id.  (The unamended claim fails at the 64-bit overflow of the Go
`int` counter, see the counterexample.) -/
theorem getNextID_first_and_monotone :
    idAt 0 = 1 ∧ ∀ i j : Nat, i < j → j < 2 ^ 63 - 1 → idAt i < idAt j := by
  refine ⟨rfl, fun i j hij hj => ?_⟩
  rw [idAt_of_lt_wrap i (lt_trans hij hj), idAt_of_lt_wrap j hj]
  omega

theorem getNextID_first_and_monotone_witness : idAt 0 = 1 ∧ idAt 0 < idAt 1 :=
  ⟨getNextID_first_and_monotone.1,
   getNextID_first_and_monotone.2 0 1 (by decide) (by decide)⟩

/-- Counterexample to claim C1 as stated: `m.nextID++` is 64-bit Go `int`
arithmetic, so the id returned by call number `2^63` (index `2^63 - 1`) is
`-2^63`, strictly *smaller* than the `2^63 - 1` returned by the call before
it — "a strictly larger value on every subsequent call" fails at the
overflow. -/
theorem getNextID_overflow_wraps :
    idAt (2 ^ 63 - 1) < idAt (2 ^ 63 - 2) ∧ idAt (2 ^ 63 - 2) = 2 ^ 63 - 1 := by
  rw [idAt, idAt, nextIDAfter_closed, nextIDAfter_closed]
  unfold wrap64
  constructor <;> omega

/-- Claim C2: a `Call` with a positive timeout against a transport that
never delivers a response for its id returns the timeout error (mcp.go line
695) rather than blocking forever — the armed `time.AfterFunc` closes
`doneChan` — and the timer callback (mcp.go lines 654-659) has deleted the
request's id from the pending-request table before the caller returns. -/
theorem call_timeout_returns_and_cleans (s : EngineState) (method : String)
    (params : Json) (timeout : Int) (hrun : s.running = true)
    (ht : 0 < timeout) :
    (callWithTimeout s method params timeout .timerFired).1
      = .errTimeout timeout ∧
    s.nextID ∉ (callWithTimeout s method params timeout .timerFired).2.pending := by
  constructor
  · simp [callWithTimeout, hrun, ht]
  · simp [callWithTimeout, hrun, ht, insertKey, eraseKey, List.mem_filter]

def neverRepliedState : EngineState :=
  { nextID := 1, running := true, pending := [], writes := [] }

theorem call_timeout_returns_and_cleans_witness :
    (callWithTimeout neverRepliedState "ping" Json.null 50 .timerFired).1
      = .errTimeout 50 ∧
    neverRepliedState.nextID ∉
      (callWithTimeout neverRepliedState "ping" Json.null 50 .timerFired).2.pending :=
  call_timeout_returns_and_cleans neverRepliedState "ping" Json.null 50 rfl
    (by decide)

/-- Claim C3, amended: when the child process exits while requests are in
flight, the waiter goroutine (mcp.go lines 165-185) closes every pending
entry's `doneChan`, stops its timer and empties the pending-request table,
and flips `running` to false; every blocked caller is thereby released and
returns an error — none is left to hang — but the error it returns is the
*generic timeout error* of the `select`'s `doneChan` branch (mcp.go line
695), not a distinct process-exited / connection-closed error: the code has
no such error value. -/
theorem processExit_unblocks_pending (s : EngineState) (method : String)
    (params : Json) (timeout : Int) (hrun : s.running = true) :
    (callWithTimeout s method params timeout .processExited).1
      = .errTimeout timeout ∧
    (callWithTimeout s method params timeout .processExited).1
      ≠ .blocked ∧
    (callWithTimeout s method params timeout .processExited).2.pending = [] ∧
    (callWithTimeout s method params timeout .processExited).2.running = false := by
  refine ⟨?_, ?_, ?_, ?_⟩ <;> simp [callWithTimeout, hrun]

def inFlightState : EngineState :=
  { nextID := 7, running := true, pending := [], writes := [] }

theorem processExit_unblocks_pending_witness :
    (callWithTimeout inFlightState "tools/list" (Json.obj []) defaultTimeout
        .processExited).1 = .errTimeout defaultTimeout ∧
    (callWithTimeout inFlightState "tools/list" (Json.obj []) defaultTimeout
        .processExited).1 ≠ .blocked ∧
    (callWithTimeout inFlightState "tools/list" (Json.obj []) defaultTimeout
        .processExited).2.pending = [] ∧
    (callWithTimeout inFlightState "tools/list" (Json.obj []) defaultTimeout
        .processExited).2.running = false :=
  processExit_unblocks_pending inFlightState "tools/list" (Json.obj [])
    defaultTimeout rfl

/-- Counterexample to claim C3 as stated: it claims each blocked caller
returns with a ProcessExitedError (a connection-closed error).  In the code
the process-exit path resolves a blocked `Call` with *exactly the same*
outcome as a plain timer expiry — `fmt.Errorf("request timed out after %v",
timeout)` (mcp.go line 695) — because both paths merely close `doneChan`;
the caller cannot observe a connection-closed error, and no process-exited
error value exists anywhere in mcp.go. -/
theorem processExit_error_is_generic_timeout :
    (callWithTimeout inFlightState "tools/call" (Json.obj []) defaultTimeout
        .processExited).1 = CallOutcome.errTimeout defaultTimeout ∧
    (callWithTimeout inFlightState "tools/call" (Json.obj []) defaultTimeout
        .timerFired).1 = CallOutcome.errTimeout defaultTimeout := by
  constructor <;> rfl

/-- The wire line `{"jsonrpc":"2.0","method":"notifications/tools/list_changed"}`
— the JSON-RPC notification the MCP server sends when its tool list changes
(consumed per mcp.go lines 152-155). -/
def listChangedLine : Json :=
  .obj [("jsonrpc", .str "2.0"),
        ("method", .str "notifications/tools/list_changed")]

/-- What `json.Unmarshal` makes of `listChangedLine`: `Response` has no
`Method` field, so the top-level `method` key is ignored, `Result` stays
nil, and `ID` stays nil. -/
def listChangedResponse : Response :=
  { jsonrpc := "2.0", result := .null, error := none, id := .null }

/-- The handler table after `Start` registers its own default handler for
`notifications/tools/list_changed` (mcp.go lines 152-155). -/
def startHandlers : List (String × Nat) :=
  registerHandler [] "notifications/tools/list_changed" 0

/-- Claim C4 is a code bug: for a line that decodes to an id-less JSON-RPC
message, `dispatchToHandler` does not read the method from the notification
payload (the top-level `method` key, which `Response` does not even
capture); it evaluates `response.Result.(map[string]any)["method"].(string)`
(mcp.go line 316), whose inner type assertion is in single-value context and
*panics* whenever `Result` is not a map — in particular on every
spec-conformant notification, which has no `result` member at all.  The
theorem evaluates the dispatcher at the server's own
`notifications/tools/list_changed` notification, for which `Start`
registered a handler: instead of invoking it (or silently dropping the
message), the dispatcher goroutine panics. -/
theorem dispatch_panics_on_conformant_notification :
    unmarshalResponse listChangedLine = .ok listChangedResponse ∧
    listChangedResponse.id.isNull = true ∧
    lookupHandler startHandlers "notifications/tools/list_changed" = some 0 ∧
    dispatchToHandler startHandlers listChangedResponse =
      .error (.interfaceConversion
        "interface conversion: interface \x7b\x7d is nil, not map[string]any") :=
  ⟨rfl, rfl, rfl, rfl⟩

/-- Claim C5: `ParseResponse` (given the correct `jsonrpc` tag) accepts a
decoded response exactly when exactly one of result/error is present, and
returns the matching "invalid" error when both or neither are present
(part_032 lines 165-172). -/
theorem parseResponse_exactly_one (j : Json) (r : Response)
    (h : unmarshalResponse j = .ok r) (hv : r.jsonrpc = "2.0") :
    ((ParseResponse j).accepts = ((!r.result.isNull).xor r.error.isSome)) ∧
    ((!r.result.isNull && r.error.isSome) = true →
      ParseResponse j =
        .invalid r "invalid JSON-RPC response: both result and error present") ∧
    ((r.result.isNull && r.error.isNone) = true →
      ParseResponse j =
        .invalid r "invalid JSON-RPC response: missing both result and error") := by
  cases he : r.error <;> cases hn : r.result.isNull <;>
    simp_all [ParseResponse, ParseOutcome.accepts, Version]

def bothSetLine : Json :=
  .obj [("jsonrpc", .str "2.0"),
        ("result", .str "ok"),
        ("error", .obj [("code", .num (-32600)), ("message", .str "bad")]),
        ("id", .num 1)]

def bothSetResponse : Response :=
  { jsonrpc := "2.0", result := .str "ok",
    error := some { code := -32600, message := "bad", data := .null },
    id := .num 1 }

theorem parseResponse_exactly_one_witness :
    unmarshalResponse bothSetLine = .ok bothSetResponse ∧
    (ParseResponse bothSetLine).accepts
      = ((!bothSetResponse.result.isNull).xor bothSetResponse.error.isSome) :=
  ⟨rfl, (parseResponse_exactly_one bothSetLine bothSetResponse rfl rfl).1⟩

/-- Claim C6, amended: for every *non-empty* method string and all params
and id values, building a `Request` with `NewRequest`, marshalling it and
parsing the marshalled object back with `Parse` succeeds and reproduces
method, params and id exactly.  (For the empty method string the round trip
fails `Parse`'s `request.Method == ""` validation — see the
counterexample.) -/
theorem request_roundtrip (method : String) (params id : Json)
    (h : method ≠ "") :
    Parse (marshalRequest (NewRequest method params id))
      = .ok (NewRequest method params id) := by
  have hm : (method == "") = false := beq_eq_false_iff_ne.mpr h
  cases hp : params.isNull <;> cases hi : id.isNull
  all_goals try (have hp' := (Json.isNull_iff params).mp hp; subst hp')
  all_goals try (have hi' := (Json.isNull_iff id).mp hi; subst hi')
  all_goals
    simp [Parse, marshalRequest, NewRequest, unmarshalRequest, lookupField,
      hm, h, hp, hi, Version, List.lookup, bind, Except.bind]

theorem request_roundtrip_witness :
    Parse (marshalRequest (NewRequest "tools/list" (Json.obj []) (Json.num 3)))
      = .ok (NewRequest "tools/list" (Json.obj []) (Json.num 3)) :=
  request_roundtrip "tools/list" (Json.obj []) (Json.num 3) (by decide)

/-- Counterexample to claim C6 as stated: with the empty method string
(`NewRequest "" nil 1`), encoding and re-parsing does *not* succeed —
`Parse` returns the request together with the `"missing method in JSON-RPC
request"` error (part_032 lines 145-147), so the round trip fails for this
method value. -/
theorem request_roundtrip_fails_empty_method :
    Parse (marshalRequest (NewRequest "" Json.null (Json.num 1)))
      = .invalid { jsonrpc := "2.0", method := "", params := .null, id := .num 1 }
          "missing method in JSON-RPC request" ∧
    (Parse (marshalRequest (NewRequest "" Json.null (Json.num 1)))).accepts
      = false :=
  ⟨rfl, rfl⟩

/-- Claim C7 is a code bug: replaying the atomic steps of `callWithTimeout`
shows that the `fmt.Fprintln(m.cmdStdin, string(requestJSON))` write of the
request line (step 11, mcp.go line 680) is executed while the caller holds
*no* mutex — `runningMtx`, `idMutex` and `pendingMtx` have all been released
by then — and the step list contains no hand-off to a writer goroutine: the
write is performed inline by each concurrent caller.  The single-writer
discipline (mutex or single writer task) the claim says enforces
non-interleaving does not exist in the code; contiguity of concurrent
request lines rests only on `Fprintln` issuing one `Write` call and on the
OS pipe, which is not atomic for lines longer than `PIPE_BUF`. -/
theorem stdin_write_holds_no_lock :
    callWithTimeoutActions.get? 11 = some CallAction.writeStdin ∧
    locksHeldBefore callWithTimeoutActions 11 = [] := by
  constructor <;> rfl

/-- The engine state right after `Start` succeeded, before any call. -/
def startedState : EngineState :=
  { nextID := 1, running := true, pending := [], writes := [] }

/-- A well-formed `initialize` result from the server. -/
def initResultOk : Json :=
  .obj [("capabilities", .obj [("tools", .obj [("listChanged", .bool true)])]),
        ("protocolVersion", .str "2024-11-05"),
        ("serverInfo", .obj [("name", .str "demo-server"),
                             ("version", .str "0.1.0")])]

/-- Claim C8 is a code bug: after a successful `initialize` exchange,
`GetCapabilities` sends `notifications/initialized` via `m.Call` (mcp.go
line 620), i.e. through `callWithTimeout` — so the message is a *request*,
not a one-way notification: it carries id 2, consumes an id from the
allocator (`nextID` ends at 3, not 2), and a response is awaited until the
30-second default timeout fires (the compliant server never answers a
notification, so the `initializedOutcome` is the timeout error).  Only the
last part of the claim matches the code: the failure is logged and
`GetCapabilities` still returns the capabilities without error. -/
theorem initialized_notification_uses_call :
    (getCapabilitiesRunning startedState initResultOk).final.writes =
      [{ jsonrpc := "2.0", method := "initialize",
         params := initializeParams, id := .num 1 },
       { jsonrpc := "2.0", method := "notifications/initialized",
         params := .obj [], id := .num 2 }] ∧
    (getCapabilitiesRunning startedState initResultOk).final.nextID = 3 ∧
    (getCapabilitiesRunning startedState initResultOk).initializedOutcome
      = some (.errTimeout defaultTimeout) ∧
    (getCapabilitiesRunning startedState initResultOk).result
      = .ok { tools := { listChanged := true } } := by
  refine ⟨?_, ?_, ?_, ?_⟩ <;> rfl

/-- Claim C9: when the transport is not running and the named tool's
`Execute` fails, `CallTool` returns a nil Go error together with a
`ToolResult` whose `IsError` is true and whose single text content item (and
`Result` field) carry the error text — the execution failure is never
propagated as a returned error (mcp.go lines 503-516). -/
theorem callTool_execError_returns_isError (reg : Registry) (name : String)
    (tool : ToolExecutor) (arguments : Json) (e : String)
    (hget : Registry.Get reg name = some tool)
    (hex : tool.execute arguments = .error e) :
    (callToolNotRunning reg name arguments).1 =
      .ok { name := name,
            result := "Error executing tool: " ++ e,
            isError := true,
            content := [{ type := "text",
                          text := "Error executing tool: " ++ e,
                          data := "", mimeType := "", resource := none }] } := by
  simp [callToolNotRunning, hget, hex]

/-- A local tool whose handler always fails. -/
def failingTool : ToolExecutor :=
  { name := "boom", description := "always fails", schema := .obj [],
    execute := fun _ => .error "kaput" }

/-- A registry holding only `failingTool`. -/
def failingRegistry : Registry := [("boom", failingTool)]

theorem callTool_execError_returns_isError_witness :
    (callToolNotRunning failingRegistry "boom" (Json.obj [])).1 =
      .ok { name := "boom",
            result := "Error executing tool: " ++ "kaput",
            isError := true,
            content := [{ type := "text",
                          text := "Error executing tool: " ++ "kaput",
                          data := "", mimeType := "", resource := none }] } :=
  callTool_execError_returns_isError failingRegistry "boom" failingTool
    (Json.obj []) "kaput" rfl rfl

/-- Claim C10: when the transport is not running and no tool of the given
name is registered, `CallTool` returns a nil result with the raised
`"tool ... not found in registry"` error (mcp.go lines 491-494) — unlike
execution failures, which become `IsError` results — and the registry is
left unchanged. -/
theorem callTool_unknown_tool (reg : Registry) (name : String)
    (arguments : Json) (hget : Registry.Get reg name = none) :
    (callToolNotRunning reg name arguments).1 =
      .error ("tool \x27" ++ name ++ "\x27 not found in registry") ∧
    (callToolNotRunning reg name arguments).2 = reg := by
  constructor <;> simp [callToolNotRunning, hget]

/-- The empty local registry. -/
def emptyRegistry : Registry := []

theorem callTool_unknown_tool_witness :
    (callToolNotRunning emptyRegistry "weather" Json.null).1 =
      .error ("tool \x27" ++ "weather" ++ "\x27 not found in registry") ∧
    (callToolNotRunning emptyRegistry "weather" Json.null).2 = emptyRegistry :=
  callTool_unknown_tool emptyRegistry "weather" Json.null rfl

end Bond
